import Mathlib

/-!
Verification development for the app-directory render orchestrator
(`packages/next/src/server/app-render/app-render.tsx`).

JavaScript strings are embedded as `List Char` (sequences of Unicode scalar
values).  `encodeURIComponent` / the percent-decoding it inverts are modelled
byte-exactly (UTF-8 plus `%XX` escapes, with the ECMA-262 unreserved set).
-/

namespace AppRender

/-- JavaScript string, as a list of Unicode scalar values. -/
abbrev JSStr := List Char

/-- Uppercase hexadecimal digit for a nibble, as produced by `encodeURIComponent`. -/
def hexDigitChar (n : Nat) : Char :=
  if n < 10 then Char.ofNat (48 + n) else Char.ofNat (55 + n)

/-- Numeric value of a hexadecimal digit character (either case), if any. -/
def hexVal (c : Char) : Option Nat :=
  let n := c.toNat
  if 48 ≤ n ∧ n ≤ 57 then some (n - 48)
  else if 65 ≤ n ∧ n ≤ 70 then some (n - 55)
  else if 97 ≤ n ∧ n ≤ 102 then some (n - 87)
  else none

/-- The characters `encodeURIComponent` leaves unescaped
(ECMA-262 `uriUnescaped`): ASCII alphanumerics and `- _ . ! ~ * ' ( )`. -/
def isUnreservedChar (c : Char) : Bool :=
  let n := c.toNat
  (65 ≤ n && n ≤ 90) || (97 ≤ n && n ≤ 122) || (48 ≤ n && n ≤ 57) ||
    n == 45 || n == 95 || n == 46 || n == 33 || n == 126 || n == 42 ||
    n == 39 || n == 40 || n == 41

/-- UTF-8 encoding of one Unicode scalar value (as a list of byte values). -/
def utf8EncodeChar (n : Nat) : List Nat :=
  if n < 128 then [n]
  else if n < 2048 then [192 + n / 64, 128 + n % 64]
  else if n < 65536 then [224 + n / 4096, 128 + n / 64 % 64, 128 + n % 64]
  else [240 + n / 262144, 128 + n / 4096 % 64, 128 + n / 64 % 64, 128 + n % 64]

/-- UTF-8 encoding of a whole string. -/
def utf8Encode (s : JSStr) : List Nat :=
  s.flatMap fun c => utf8EncodeChar c.toNat

/-- Is the byte a UTF-8 continuation byte (`10xxxxxx`)? -/
def isUtf8Cont (b : Nat) : Bool :=
  128 ≤ b && b < 192

mutual

/-- UTF-8 decoding of a byte-value list into Unicode scalar values. -/
def utf8DecodeList : List Nat → Option (List Nat)
  | [] => some []
  | b :: rest =>
    if b < 128 then (fun cs => b :: cs) <$> utf8DecodeList rest
    else if b < 192 then none
    else if b < 224 then utf8DecodeTail2 b rest
    else if b < 240 then utf8DecodeTail3 b rest
    else if b < 248 then utf8DecodeTail4 b rest
    else none

/-- Continuation of a two-byte UTF-8 sequence headed by `b`. -/
def utf8DecodeTail2 (b : Nat) : List Nat → Option (List Nat)
  | b2 :: rest =>
    if isUtf8Cont b2 then
      (fun cs => ((b - 192) * 64 + (b2 - 128)) :: cs) <$> utf8DecodeList rest
    else none
  | [] => none

/-- Continuation of a three-byte UTF-8 sequence headed by `b`. -/
def utf8DecodeTail3 (b : Nat) : List Nat → Option (List Nat)
  | b2 :: b3 :: rest =>
    if isUtf8Cont b2 && isUtf8Cont b3 then
      (fun cs => ((b - 224) * 4096 + (b2 - 128) * 64 + (b3 - 128)) :: cs) <$>
        utf8DecodeList rest
    else none
  | _ => none

/-- Continuation of a four-byte UTF-8 sequence headed by `b`. -/
def utf8DecodeTail4 (b : Nat) : List Nat → Option (List Nat)
  | b2 :: b3 :: b4 :: rest =>
    if isUtf8Cont b2 && isUtf8Cont b3 && isUtf8Cont b4 then
      (fun cs =>
          ((b - 240) * 262144 + (b2 - 128) * 4096 + (b3 - 128) * 64 + (b4 - 128)) :: cs) <$>
        utf8DecodeList rest
    else none
  | _ => none

end

/-- `%XX` escape (uppercase hex) for one byte value. -/
def percentEncodeByte (b : Nat) : List Char :=
  ['%', hexDigitChar (b / 16), hexDigitChar (b % 16)]

/-- Model of JavaScript `encodeURIComponent`: unreserved characters are kept,
every other character's UTF-8 bytes are `%XX`-escaped. -/
def encodeURIComponent (s : JSStr) : JSStr :=
  s.flatMap fun c =>
    if isUnreservedChar c then [c]
    else (utf8EncodeChar c.toNat).flatMap percentEncodeByte

/-- First phase of percent-decoding: turn `%XX` escapes into bytes and other
characters into their UTF-8 bytes, failing on malformed escapes. -/
def percentUnescape : List Char → Option (List Nat)
  | [] => some []
  | c :: rest =>
    if c = '%' then
      match rest with
      | h :: l :: rest2 =>
        match hexVal h, hexVal l with
        | some hv, some lv => (fun bs => (hv * 16 + lv) :: bs) <$> percentUnescape rest2
        | _, _ => none
      | _ => none
    else (fun bs => utf8EncodeChar c.toNat ++ bs) <$> percentUnescape rest

/-- Model of percent-decoding (`decodeURIComponent`), returning the decoded
Unicode scalar values: unescape `%XX` sequences to bytes, then UTF-8-decode. -/
def decodeURIComponentCodepoints (s : JSStr) : Option (List Nat) :=
  (percentUnescape s).bind utf8DecodeList

theorem hexVal_hexDigitChar (n : Nat) (h : n < 16) :
    hexVal (hexDigitChar n) = some n := by
  interval_cases n <;> decide

theorem char_toNat_lt (c : Char) : c.toNat < 1114112 := by
  have h := c.valid
  rcases h with h | h
  · exact Nat.lt_trans h (by decide)
  · exact h.2

theorem utf8DecodeList_nil : utf8DecodeList [] = some [] := by
  simp only [utf8DecodeList]

theorem utf8DecodeList_cons (b : Nat) (rest : List Nat) :
    utf8DecodeList (b :: rest) =
      if b < 128 then (fun cs => b :: cs) <$> utf8DecodeList rest
      else if b < 192 then none
      else if b < 224 then utf8DecodeTail2 b rest
      else if b < 240 then utf8DecodeTail3 b rest
      else if b < 248 then utf8DecodeTail4 b rest
      else none := by
  simp only [utf8DecodeList]

theorem utf8DecodeTail2_cons (b b2 : Nat) (rest : List Nat) :
    utf8DecodeTail2 b (b2 :: rest) =
      if isUtf8Cont b2 then
        (fun cs => ((b - 192) * 64 + (b2 - 128)) :: cs) <$> utf8DecodeList rest
      else none := by
  simp only [utf8DecodeTail2]

theorem utf8DecodeTail3_cons (b b2 b3 : Nat) (rest : List Nat) :
    utf8DecodeTail3 b (b2 :: b3 :: rest) =
      if isUtf8Cont b2 && isUtf8Cont b3 then
        (fun cs => ((b - 224) * 4096 + (b2 - 128) * 64 + (b3 - 128)) :: cs) <$>
          utf8DecodeList rest
      else none := by
  simp only [utf8DecodeTail3]

theorem utf8DecodeTail4_cons (b b2 b3 b4 : Nat) (rest : List Nat) :
    utf8DecodeTail4 b (b2 :: b3 :: b4 :: rest) =
      if isUtf8Cont b2 && isUtf8Cont b3 && isUtf8Cont b4 then
        (fun cs =>
            ((b - 240) * 262144 + (b2 - 128) * 4096 + (b3 - 128) * 64 + (b4 - 128)) :: cs) <$>
          utf8DecodeList rest
      else none := by
  simp only [utf8DecodeTail4]

theorem isUtf8Cont_of_bounds (b : Nat) (h1 : 128 ≤ b) (h2 : b < 192) :
    isUtf8Cont b = true := by
  simp [isUtf8Cont]
  omega

theorem utf8DecodeList_encodeChar (n : Nat) (h : n < 1114112) (bs : List Nat) :
    utf8DecodeList (utf8EncodeChar n ++ bs) =
      (fun cs => n :: cs) <$> utf8DecodeList bs := by
  unfold utf8EncodeChar
  by_cases h1 : n < 128
  · rw [if_pos h1]
    simp only [List.cons_append, List.nil_append]
    rw [utf8DecodeList_cons, if_pos h1]
  · by_cases h2 : n < 2048
    · rw [if_neg h1, if_pos h2]
      simp only [List.cons_append, List.nil_append]
      rw [utf8DecodeList_cons, if_neg (by omega), if_neg (by omega), if_pos (by omega),
        utf8DecodeTail2_cons, if_pos (isUtf8Cont_of_bounds _ (by omega) (by omega)),
        show (192 + n / 64 - 192) * 64 + (128 + n % 64 - 128) = n by omega]
    · by_cases h3 : n < 65536
      · rw [if_neg h1, if_neg h2, if_pos h3]
        simp only [List.cons_append, List.nil_append]
        rw [utf8DecodeList_cons, if_neg (by omega), if_neg (by omega), if_neg (by omega),
          if_pos (by omega), utf8DecodeTail3_cons,
          isUtf8Cont_of_bounds _ (by omega) (by omega),
          isUtf8Cont_of_bounds _ (by omega) (by omega)]
        rw [if_pos (show (true && true) = true from rfl),
          show (224 + n / 4096 - 224) * 4096 + (128 + n / 64 % 64 - 128) * 64 +
            (128 + n % 64 - 128) = n by omega]
      · rw [if_neg h1, if_neg h2, if_neg h3]
        simp only [List.cons_append, List.nil_append]
        rw [utf8DecodeList_cons, if_neg (by omega), if_neg (by omega), if_neg (by omega),
          if_neg (by omega), if_pos (by omega), utf8DecodeTail4_cons,
          isUtf8Cont_of_bounds _ (by omega) (by omega),
          isUtf8Cont_of_bounds _ (by omega) (by omega),
          isUtf8Cont_of_bounds _ (by omega) (by omega)]
        rw [if_pos (show (true && true && true) = true from rfl),
          show (240 + n / 262144 - 240) * 262144 + (128 + n / 4096 % 64 - 128) * 4096 +
            (128 + n / 64 % 64 - 128) * 64 + (128 + n % 64 - 128) = n by omega]

theorem utf8DecodeList_utf8Encode (s : JSStr) :
    utf8DecodeList (utf8Encode s) = some (s.map Char.toNat) := by
  induction s with
  | nil => exact utf8DecodeList_nil
  | cons c rest ih =>
    have hs : utf8Encode (c :: rest) = utf8EncodeChar c.toNat ++ utf8Encode rest := by
      simp [utf8Encode]
    rw [hs, utf8DecodeList_encodeChar c.toNat (char_toNat_lt c), ih]
    rfl

theorem utf8EncodeChar_bytes_lt (n : Nat) (h : n < 1114112) :
    ∀ b ∈ utf8EncodeChar n, b < 256 := by
  intro b hb
  unfold utf8EncodeChar at hb
  by_cases h1 : n < 128
  · simp [h1] at hb; omega
  · by_cases h2 : n < 2048
    · simp [h1, h2] at hb; omega
    · by_cases h3 : n < 65536
      · simp [h1, h2, h3] at hb; omega
      · simp [h1, h2, h3] at hb; omega

theorem percentUnescape_percent (h l : Char) (rest : List Char) :
    percentUnescape ('%' :: h :: l :: rest) =
      match hexVal h, hexVal l with
      | some hv, some lv => (fun bs => (hv * 16 + lv) :: bs) <$> percentUnescape rest
      | _, _ => none := by
  rfl

theorem percentUnescape_cons_ne (c : Char) (rest : List Char) (hc : ¬ c = '%') :
    percentUnescape (c :: rest) =
      (fun bs => utf8EncodeChar c.toNat ++ bs) <$> percentUnescape rest := by
  conv_lhs => rw [percentUnescape.eq_def]
  exact if_neg hc

theorem percentUnescape_escape (b : Nat) (h : b < 256) (rest : List Char) :
    percentUnescape (percentEncodeByte b ++ rest) =
      (fun bs => b :: bs) <$> percentUnescape rest := by
  simp only [percentEncodeByte, List.cons_append, List.nil_append]
  rw [percentUnescape_percent]
  simp only [hexVal_hexDigitChar (b / 16) (by omega), hexVal_hexDigitChar (b % 16) (by omega)]
  rw [show b / 16 * 16 + b % 16 = b by omega]

theorem percentUnescape_escapes (l : List Nat) (h : ∀ b ∈ l, b < 256)
    (rest : List Char) :
    percentUnescape (l.flatMap percentEncodeByte ++ rest) =
      (fun bs => l ++ bs) <$> percentUnescape rest := by
  induction l with
  | nil =>
    simp only [List.flatMap_nil, List.nil_append]
    cases percentUnescape rest <;> rfl
  | cons b t ih =>
    have hb : b < 256 := h b (List.mem_cons_self b t)
    have ht : ∀ x ∈ t, x < 256 := fun x hx => h x (List.mem_cons_of_mem b hx)
    simp only [List.flatMap_cons, List.append_assoc]
    rw [percentUnescape_escape b hb, ih ht]
    cases percentUnescape rest <;> rfl

theorem isUnreservedChar_ne_percent (c : Char) (h : isUnreservedChar c = true) :
    ¬ c = '%' := by
  intro hc
  subst hc
  simp [isUnreservedChar] at h

theorem percentUnescape_encodeURIComponent (s : JSStr) :
    percentUnescape (encodeURIComponent s) = some (utf8Encode s) := by
  induction s with
  | nil => rfl
  | cons c rest ih =>
    have hs : encodeURIComponent (c :: rest) =
        (if isUnreservedChar c then [c]
          else (utf8EncodeChar c.toNat).flatMap percentEncodeByte) ++
          encodeURIComponent rest := by
      simp [encodeURIComponent]
    rw [hs]
    by_cases hu : isUnreservedChar c
    · rw [if_pos hu]
      simp only [List.cons_append, List.nil_append]
      rw [percentUnescape_cons_ne c _ (isUnreservedChar_ne_percent c hu), ih]
      simp [utf8Encode]
    · rw [if_neg hu,
        percentUnescape_escapes _ (utf8EncodeChar_bytes_lt _ (char_toNat_lt c)) _, ih]
      simp [utf8Encode]

/-- Percent-encoding round trip: decoding the `encodeURIComponent` image of a
string yields the original scalar values. -/
theorem decode_encodeURIComponent (s : JSStr) :
    decodeURIComponentCodepoints (encodeURIComponent s) = some (s.map Char.toNat) := by
  rw [decodeURIComponentCodepoints, percentUnescape_encodeURIComponent]
  show utf8DecodeList (utf8Encode s) = some (s.map Char.toNat)
  exact utf8DecodeList_utf8Encode s


/-! ## Segment addressing

Embedding of `findDynamicParamFromRouterState` and
`makeGetDynamicParamFromSegment` from `app-render.tsx`.  Collaborator
helpers that live in repository modules outside the analyzed source
(`get-segment-param`, `get-short-dynamic-param-type`, `match-segments`) are
modelled from the spec, as marked on their doc comments. -/

/-- Long dynamic-parameter kinds (`dynamic` / `catchall` / `optional-catchall`). -/
inductive DynamicParamType
  | dynamic
  | catchall
  | optionalCatchall
deriving DecidableEq, Repr

/-- Short dynamic-parameter type tags used in router-state descriptors. -/
inductive DynamicParamTypeShort
  | d
  | c
  | oc
deriving DecidableEq, Repr

/-- Modelled from the spec: the `dynamicParamTypes` mapping of the
`get-short-dynamic-param-type` module (not under `src/`), sending each
dynamic-parameter kind to its short tag. -/
def dynamicParamTypes : DynamicParamType → DynamicParamTypeShort
  | .dynamic => .d
  | .catchall => .c
  | .optionalCatchall => .oc

/-- Modelled from the spec: `getShortDynamicParamType` (not under `src/`),
which looks the kind up in `dynamicParamTypes`. -/
def getShortDynamicParamType : DynamicParamType → DynamicParamTypeShort :=
  dynamicParamTypes

/-- Parsed dynamic-placeholder information of a segment string. -/
structure SegmentParamInfo where
  /-- The parameter name inside the brackets. -/
  param : JSStr
  /-- The placeholder kind (`type` in the source). -/
  ptype : DynamicParamType
deriving DecidableEq, Repr

/-- Modelled from the spec: `getSegmentParam` (not under `src/`).  Dynamic
placeholders follow the conventions quoted in the source comments of
`makeGetDynamicParamFromSegment`: `[[...slug]]` is an optional catch-all,
`[...slug]` a catch-all and `[slug]` a plain dynamic segment. -/
def getSegmentParam (segment : JSStr) : Option SegmentParamInfo :=
  if List.isPrefixOf [ '[', '[', '.', '.', '.' ] segment &&
      List.isSuffixOf [ ']', ']' ] segment then
    some ⟨((segment.drop 5).dropLast).dropLast, .optionalCatchall⟩
  else if List.isPrefixOf [ '[', '.', '.', '.' ] segment &&
      List.isSuffixOf [ ']' ] segment then
    some ⟨(segment.drop 4).dropLast, .catchall⟩
  else if List.isPrefixOf [ '[' ] segment && List.isSuffixOf [ ']' ] segment then
    some ⟨(segment.drop 1).dropLast, .dynamic⟩
  else none

/-- A router-state segment descriptor: a literal string, or the serialized
triple (param name, encoded value, short type) of a dynamic segment. -/
inductive Segment
  | literal (s : JSStr)
  | dynamic (param : JSStr) (value : JSStr) (ptype : DynamicParamTypeShort)
deriving DecidableEq, Repr

/-- A client-provided router state: the segment descriptor of the node and
its named parallel-route children, in slot-iteration order.  (The remaining
tuple positions of the source type — url, refresh marker — are not read by
the embedded code.) -/
inductive FlightRouterState
  | mk (segment : Segment) (parallelRoutes : List (JSStr × FlightRouterState))

/-- Resolved value of one dynamic route segment
(the record returned by `getDynamicParamFromSegment`). -/
inductive ParamValue
  | str (s : JSStr)
  | arr (l : List JSStr)
deriving DecidableEq, Repr

/-- The record returned by `getDynamicParamFromSegment`
(`value` may be a string, an array of strings, or null). -/
structure DynamicParam where
  param : JSStr
  value : Option ParamValue
  treeSegment : Segment
  ptype : DynamicParamTypeShort
deriving DecidableEq, Repr

/-- Modelled from the spec: `canSegmentBeOverridden` from `match-segments`
(not under `src/`): the requested segment (a plain string, never an array)
is overridable by a router-state descriptor exactly when the descriptor is a
dynamic triple — same literal/array-ness — whose parameter name matches the
requested dynamic placeholder's parameter name. -/
def canSegmentBeOverridden (existingSegment : JSStr) (segment : Segment) : Bool :=
  match segment with
  | .literal _ => false
  | .dynamic p _ _ =>
    match getSegmentParam existingSegment with
    | some sp => sp.param == p
    | none => false

/-- The dynamic param extracted from a matched router-state descriptor. -/
def overriddenDynamicParam : Segment → Option DynamicParam
  | .literal _ => none
  | .dynamic p v t =>
    some { param := p, value := some (.str v), treeSegment := .dynamic p v t, ptype := t }

mutual

/-- `findDynamicParamFromRouterState`: scan the provided router state for a
node whose descriptor can override the requested dynamic segment
(intercepted routes read their params from the router state, not the path).
On a `canSegmentBeOverridden` hit, the source guard
`if (!Array.isArray(treeSegment) || Array.isArray(segment)) return null`
followed by the construction of the result record is
`overriddenDynamicParam treeSegment` (the requested segment is a string,
never an array). -/
def findDynamicParamFromRouterState :
    Option FlightRouterState → JSStr → Option DynamicParam
  | none, _ => none
  | some (.mk treeSegment parallelRoutes), segment =>
    if canSegmentBeOverridden segment treeSegment then
      overriddenDynamicParam treeSegment
    else
      findDynamicParamInParallelRoutes parallelRoutes segment

/-- The `for (const parallelRouterState of Object.values(...))` loop of
`findDynamicParamFromRouterState`: first match wins in slot order. -/
def findDynamicParamInParallelRoutes :
    List (JSStr × FlightRouterState) → JSStr → Option DynamicParam
  | [], _ => none
  | (_, child) :: rest, segment =>
    match findDynamicParamFromRouterState (some child) segment with
    | some d => some d
    | none => findDynamicParamInParallelRoutes rest segment

end

mutual

/-- Depth-first preorder listing of the descriptors of a router-state tree
(node first, then its parallel slots in iteration order). -/
def frsPreorder : FlightRouterState → List Segment
  | .mk s children => s :: frsPreorderRoutes children

/-- Preorder listing of a list of parallel-route children. -/
def frsPreorderRoutes : List (JSStr × FlightRouterState) → List Segment
  | [] => []
  | (_, child) :: rest => frsPreorder child ++ frsPreorderRoutes rest

end

/-- Specification-side description of the fallback scan: the first node of
the depth-first preorder whose descriptor is overridable-compatible with the
requested segment yields its existing value; no match yields null. -/
def routerStateFirstOverridable
    (providedFlightRouterState : Option FlightRouterState) (segment : JSStr) :
    Option DynamicParam :=
  match providedFlightRouterState with
  | none => none
  | some frs =>
    (List.find? (fun ts => canSegmentBeOverridden segment ts) (frsPreorder frs)).bind
      overriddenDynamicParam

theorem canSegmentBeOverridden_literal (segment : JSStr) (s : JSStr) :
    canSegmentBeOverridden segment (.literal s) = false := rfl

theorem overriddenDynamicParam_isSome_of_canOverride (segment : JSStr) (ts : Segment)
    (h : canSegmentBeOverridden segment ts = true) :
    ∃ p v t, ts = .dynamic p v t ∧
      overriddenDynamicParam ts =
        some { param := p, value := some (.str v), treeSegment := .dynamic p v t, ptype := t } := by
  cases ts with
  | literal s => simp [canSegmentBeOverridden] at h
  | dynamic p v t => exact ⟨p, v, t, rfl, rfl⟩

theorem findDynamicParamInParallelRoutes_eq (segment : JSStr)
    (children : List (JSStr × FlightRouterState))
    (ih : ∀ p ∈ children, findDynamicParamFromRouterState (some p.2) segment =
      (List.find? (fun ts => canSegmentBeOverridden segment ts) (frsPreorder p.2)).bind
        overriddenDynamicParam) :
    findDynamicParamInParallelRoutes children segment =
      (List.find? (fun ts => canSegmentBeOverridden segment ts)
        (frsPreorderRoutes children)).bind overriddenDynamicParam := by
  induction children with
  | nil => simp [findDynamicParamInParallelRoutes, frsPreorderRoutes]
  | cons hd tl ihl =>
    obtain ⟨name, child⟩ := hd
    have h1 := ih (name, child) (List.mem_cons_self _ _)
    have h2 := ihl fun p hp => ih p (List.mem_cons_of_mem _ hp)
    simp only [findDynamicParamInParallelRoutes, frsPreorderRoutes]
    rw [h1, List.find?_append]
    cases hfind : List.find? (fun ts => canSegmentBeOverridden segment ts)
        (frsPreorder child) with
    | none => simpa using h2
    | some ts =>
      have hts := List.find?_some hfind
      obtain ⟨p, v, t, -, hov⟩ :=
        overriddenDynamicParam_isSome_of_canOverride segment ts hts
      simp [hov]

theorem findDynamicParamFromRouterState_eq_firstOverridable (segment : JSStr) :
    ∀ frs : FlightRouterState,
      findDynamicParamFromRouterState (some frs) segment =
        (List.find? (fun ts => canSegmentBeOverridden segment ts)
          (frsPreorder frs)).bind overriddenDynamicParam := by
  have main : ∀ n : Nat, ∀ frs : FlightRouterState, sizeOf frs ≤ n →
      findDynamicParamFromRouterState (some frs) segment =
        (List.find? (fun ts => canSegmentBeOverridden segment ts)
          (frsPreorder frs)).bind overriddenDynamicParam := by
    intro n
    induction n with
    | zero =>
      intro frs hn
      exact absurd hn (by cases frs; simp)
    | succ n ihn =>
      intro frs hn
      cases frs with
      | mk ts children =>
        rw [findDynamicParamFromRouterState]
        simp only [frsPreorder]
        by_cases hc : canSegmentBeOverridden segment ts = true
        · rw [if_pos hc, List.find?_cons_of_pos _ hc, Option.some_bind]
        · rw [if_neg hc, List.find?_cons_of_neg _ hc]
          apply findDynamicParamInParallelRoutes_eq
          intro p hp
          apply ihn
          have hlt := List.sizeOf_lt_of_mem hp
          obtain ⟨a, b⟩ := p
          simp only [FlightRouterState.mk.sizeOf_spec, Prod.mk.sizeOf_spec] at hn hlt ⊢
          omega
  intro frs
  exact main (sizeOf frs) frs (Nat.le_refl _)

/-- The code's fallback scan coincides with the specification-side
first-match depth-first scan, also through the `Option` wrapper. -/
theorem findDynamicParamFromRouterState_eq_spec
    (providedFlightRouterState : Option FlightRouterState) (segment : JSStr) :
    findDynamicParamFromRouterState providedFlightRouterState segment =
      routerStateFirstOverridable providedFlightRouterState segment := by
  cases providedFlightRouterState with
  | none => rw [findDynamicParamFromRouterState]; rfl
  | some frs => exact findDynamicParamFromRouterState_eq_firstOverridable segment frs

/-- The interception-route sentinel `__NEXT_EMPTY_PARAM__`. -/
def emptyParamMarker : JSStr :=
  "__NEXT_EMPTY_PARAM__".data

/-- JavaScript truthiness of the (possibly encoded) parameter value:
`undefined` and the empty string are falsy; arrays are always truthy. -/
def paramValueFalsy : Option ParamValue → Bool
  | none => true
  | some (.str s) => s.isEmpty
  | some (.arr _) => false

/-- `value.join('/')` for the tree-segment descriptor of array values. -/
def joinSlash (l : List JSStr) : JSStr :=
  List.intercalate [ '/' ] l

/-- The resolver produced by `makeGetDynamicParamFromSegment`: parses the
dynamic segment and returns the associated value (see the source for the
marker, encoding, optional-catch-all and router-state-fallback steps). -/
def getDynamicParamFromSegment (params : JSStr → Option ParamValue)
    (providedFlightRouterState : Option FlightRouterState) (segment : JSStr) :
    Option DynamicParam :=
  match getSegmentParam segment with
  | none => none
  | some segmentParam =>
    let key := segmentParam.param
    -- this is a special marker that will be present for interception routes
    let value0 :=
      if params key = some (.str emptyParamMarker) then none else params key
    let value : Option ParamValue :=
      match value0 with
      | some (.arr l) => some (.arr (l.map encodeURIComponent))
      | some (.str s) => some (.str (encodeURIComponent s))
      | none => none
    if paramValueFalsy value then
      if segmentParam.ptype = .optionalCatchall then
        -- optional catch-all without a value: null value, empty-string descriptor
        some { param := key, value := none,
               treeSegment := .dynamic key [] (dynamicParamTypes segmentParam.ptype),
               ptype := dynamicParamTypes segmentParam.ptype }
      else
        findDynamicParamFromRouterState providedFlightRouterState segment
    else
      some { param := key, value := value,
             treeSegment := .dynamic key
               (match value with
                 | some (.arr l) => joinSlash l
                 | some (.str s) => s
                 | none => [])
               (getShortDynamicParamType segmentParam.ptype),
             ptype := getShortDynamicParamType segmentParam.ptype }


/-! ## Render orchestration

Embedding of `renderToHTMLOrFlightImpl`: the `bodyResult` closure with its
error-recovery catch handler, and the outer request flow.  Collaborator
calls (the document-stream renderer, the recovery fizz render, the action
bridge, the tree-payload walk and the error handlers' captured-error list)
are abstracted as environment-provided outcomes. -/

/-- Identity of a `TransformStream` instance. -/
abbrev StreamId := Nat

/-- Modelled from the spec: `cloneTransformStream` (stream-utils, not under
`src/`) returns a fresh transform stream, distinct from its argument, fed by
teeing the original's unread remainder. -/
def cloneTransformStream (s : StreamId) : StreamId :=
  s + 1

/-- Digest-based classification of a thrown error (`err.digest`). -/
inductive ErrorDigest
  | notFound
  | redirect (statusCode : Nat) (url : JSStr)
  | noSSR
  | other
deriving DecidableEq, Repr

/-- A thrown JavaScript error value, as inspected by the catch handler. -/
structure JsError where
  /-- `err.code === 'NEXT_STATIC_GEN_BAILOUT'`. -/
  codeStaticGenBailout : Bool
  /-- `err.message?.includes('https://nextjs.org/docs/advanced-features/static-html-export')`. -/
  messageHasStaticExportUrl : Bool
  /-- `err.$$typeof === Symbol.for('react.postpone')`. -/
  isReactPostpone : Bool
  digest : ErrorDigest
  /-- `err.mutableCookies`, when carried by a redirect error. -/
  mutableCookies : Option (List JSStr)
deriving DecidableEq, Repr

/-- Modelled from the spec: `isNotFoundError` (not under `src/`) recognizes
the not-found signal by its digest. -/
def isNotFoundError (e : JsError) : Bool :=
  match e.digest with
  | .notFound => true
  | _ => false

/-- Modelled from the spec: `isRedirectError` (not under `src/`) recognizes
the redirect signal by its digest. -/
def isRedirectError (e : JsError) : Bool :=
  match e.digest with
  | .redirect _ _ => true
  | _ => false

/-- Modelled from the spec: `getRedirectStatusCodeFromError` (not under
`src/`): the redirect signal carries its own status code.  (The source
throws on non-redirect errors; it is only invoked under `isRedirectError`.) -/
def getRedirectStatusCodeFromError (e : JsError) : Nat :=
  match e.digest with
  | .redirect status _ => status
  | _ => 500

/-- Modelled from the spec: `getURLFromRedirectError` (not under `src/`):
the redirect signal carries its target URL. -/
def getURLFromRedirectError (e : JsError) : JSStr :=
  match e.digest with
  | .redirect _ url => url
  | _ => []

/-- Modelled from the spec: `appendMutableCookies` (not under `src/`)
appends the error's cookie mutations to a fresh header list and reports
whether any were set. -/
def appendMutableCookies (cookies : List JSStr) : Bool :=
  !cookies.isEmpty

/-- Modelled from the spec: `addPathPrefix` (not under `src/`): the redirect
URL prefixed with the configured basePath (a path not starting with `/`, or
an absent/empty prefix, is returned unchanged). -/
def addPathPrefix (path : JSStr) (basePath : Option JSStr) : JSStr :=
  match basePath with
  | none => path
  | some pre => if path.head? = some '/' ∧ pre ≠ [] then pre ++ path else path

/-- Mutable response surface (`res.statusCode`, `Location`, `set-cookie`). -/
structure ResponseState where
  statusCode : Nat
  locationHeader : Option JSStr
  setCookieHeader : Option (List JSStr)
deriving DecidableEq, Repr

/-- The static-generation store fields read or written by the orchestrator. -/
structure StaticGenerationState where
  isStaticGeneration : Bool
  revalidate : Option Nat
  forceStatic : Option Bool
deriving DecidableEq, Repr

/-- The `errorType` passed to the error-shell metadata
(`'not-found' | 'redirect' | undefined`). -/
inductive ShellErrorType
  | notFound
  | redirect
deriving DecidableEq, Repr

/-- The body produced by one `bodyResult` invocation. -/
inductive RenderedBody
  /-- The renderer produced a postponed state: the raw stream is returned
  as-is, with no inlined-data continuation. -/
  | postponedStream
  /-- `continueFizzStream` / `continuePostponedFizzStream` result for the
  page content; records which inlined-data stream readable it consumed. -/
  | pageStream (consumedInlinedStream : StreamId) (resumed : Bool)
  /-- The error-recovery shell (`ErrorPage` continued with a fresh stream);
  records which inlined-data stream readable it consumed. -/
  | errorShellStream (errorType : Option ShellErrorType) (consumedInlinedStream : StreamId)
deriving DecidableEq, Repr

/-- Outcome of the primary `renderer.render(content, ...)` call. -/
inductive PrimaryRenderOutcome
  | ok (postponed : Bool)
  | threw (e : JsError)
deriving DecidableEq, Repr

/-- Environment for one `bodyResult` invocation. -/
structure DocumentRenderEnv where
  primary : PrimaryRenderOutcome
  /-- `some e` when the error-path `renderToInitialFizzStream` /
  `continueFizzStream` recovery render itself throws `e`. -/
  errorRenderThrows : Option JsError
deriving DecidableEq, Repr

/-- Per-request configuration read by `bodyResult`. -/
structure BodyConfig where
  basePath : Option JSStr
  /-- `renderOpts.postponed` is a string: this is a resume render. -/
  resumePostponed : Bool
  /-- The `serverComponentsRenderOpts.inlinedDataTransformStream` instance. -/
  inlinedDataTransformStream : StreamId
deriving DecidableEq, Repr

/-- Result of one `bodyResult` invocation: final response/store state, the
number of document-stream render attempts started, and the body or the
propagated error. -/
structure BodyOutcome where
  res : ResponseState
  sg : StaticGenerationState
  renders : Nat
  result : Except JsError RenderedBody

/-- The `bodyResult` closure of `renderToHTMLOrFlightImpl`: drive the
document-stream renderer and, on failure, run the error-recovery path. -/
def bodyResult (cfg : BodyConfig) (env : DocumentRenderEnv)
    (res : ResponseState) (sg : StaticGenerationState) : BodyOutcome :=
  match env.primary with
  | .ok postponed =>
    if postponed then
      -- a postponed state was generated: return the stream with no other data
      { res := res, sg := sg, renders := 1, result := .ok .postponedStream }
    else if cfg.resumePostponed then
      { res := res, sg := sg, renders := 1,
        result := .ok (.pageStream cfg.inlinedDataTransformStream true) }
    else
      { res := res, sg := sg, renders := 1,
        result := .ok (.pageStream cfg.inlinedDataTransformStream false) }
  | .threw e =>
    if e.codeStaticGenBailout || e.messageHasStaticExportUrl then
      -- ensure that "next dev" prints the red error overlay: rethrow
      { res := res, sg := sg, renders := 1, result := .error e }
    else if e.isReactPostpone then
      -- postpone escaped without a wrapping suspense: force revalidate 0, rethrow
      { res := res, sg := { sg with revalidate := some 0 }, renders := 1,
        result := .error e }
    else
      -- (a NEXT_DYNAMIC_NO_SSR_CODE digest only logs a warning here)
      let res1 := if isNotFoundError e then { res with statusCode := 404 } else res
      let hasRedirectError := isRedirectError e
      let res2 :=
        if hasRedirectError then
          let resA := { res1 with statusCode := getRedirectStatusCodeFromError e }
          let resB :=
            match e.mutableCookies with
            | some cookies =>
              if appendMutableCookies cookies then
                { resA with setCookieHeader := some cookies }
              else resA
            | none => resA
          { resB with
            locationHeader := some (addPathPrefix (getURLFromRedirectError e) cfg.basePath) }
        else res1
      let is404 := res2.statusCode == 404
      let res3 :=
        if !is404 && !hasRedirectError then { res2 with statusCode := 500 } else res2
      -- clone the origin stream so the same stream is not operated twice
      let clonedStream := cloneTransformStream cfg.inlinedDataTransformStream
      let errorType : Option ShellErrorType :=
        if is404 then some .notFound
        else if hasRedirectError then some .redirect
        else none
      match env.errorRenderThrows with
      | some finalErr =>
        -- a failing fallback render is fatal and propagates
        { res := res3, sg := sg, renders := 2, result := .error finalErr }
      | none =>
        { res := res3, sg := sg, renders := 2,
          result := .ok (.errorShellStream errorType clonedStream) }

/-- The redirect URL is always a suffix of the `Location` header value. -/
theorem addPathPrefix_suffix (path : JSStr) (bp : Option JSStr) :
    path <:+ addPathPrefix path bp := by
  cases bp with
  | none => exact List.suffix_refl path
  | some pre =>
    show path <:+ if path.head? = some '/' ∧ pre ≠ [] then pre ++ path else path
    by_cases h : path.head? = some '/' ∧ pre ≠ []
    · rw [if_pos h]
      exact List.suffix_append pre path
    · rw [if_neg h]


/-- Heap of query objects: JavaScript object identity for the query mapping
(`query` is an object passed by reference; `{ ...query }` allocates). -/
structure QueryHeap where
  next : Nat
  store : Nat → List (JSStr × JSStr)

/-- `query = { ...query }`: allocate a fresh object holding a shallow copy
of the entries of `qid`, returning the new heap and the new object's id. -/
def spreadQuery (h : QueryHeap) (qid : Nat) : QueryHeap × Nat :=
  ({ next := h.next + 1,
     store := fun i => if i = h.next then h.store qid else h.store i },
   h.next)

/-- Modelled from the spec: `stripInternalQueries` (internal-utils, not
under `src/`) deletes the internal-only query parameters, in place, from the
given query object. -/
def stripInternalQueries (isInternalQueryKey : JSStr → Bool)
    (h : QueryHeap) (qid : Nat) : QueryHeap :=
  { h with
    store := fun i =>
      if i = qid then (h.store i).filter (fun kv => !isInternalQueryKey kv.1)
      else h.store i }

/-- Classification of the `handleAction` result consumed by the orchestrator. -/
inductive ActionOutcome
  /-- `handleAction` returned nothing (not an action request). -/
  | noAction
  /-- `{ type: 'not-found' }`. -/
  | actionNotFound
  /-- `{ type: 'done', result }`: short-circuit with the bridge's result. -/
  | doneResult
  /-- `{ type: 'done', formState }`: continue carrying the form state. -/
  | doneFormState
deriving DecidableEq, Repr

/-- The value of a `FlightRenderResult`: the flight readable stream renders
`[buildId, flightData]` — a serialized tree payload, no HTML. -/
structure FlightRenderResultModel where
  buildId : JSStr
  flightData : Option JSStr
deriving DecidableEq, Repr

/-- `generateFlight` on the plain request context (no action options): the
tree walk runs (`skipFlight` is absent) and its serialized output is wrapped
with the build id into a flight stream result. -/
def generateFlight (buildId : JSStr) (walkOutput : JSStr) : FlightRenderResultModel :=
  { buildId := buildId, flightData := some walkOutput }

/-- The result value returned by `renderToHTMLOrFlightImpl`. -/
inductive ImplResult
  /-- A `FlightRenderResult`: serialized tree-payload stream only, no HTML. -/
  | flightResult (payload : FlightRenderResultModel)
  /-- The Action Dispatch Bridge's own result, returned as-is. -/
  | actionResultOut
  /-- `new RenderResult(await bodyResult(...))` on the normal path, with
  `pageData` from the eager flight-payload promise. -/
  | renderResultOut (body : RenderedBody) (pageData : Option JSStr)
  /-- The static-generation second pass (HTML materialized to one string). -/
  | staticRenderResult (body : RenderedBody) (pageData : Option JSStr)
      (revalidate : Option Nat)
  /-- The action-not-found path result (not-found tree body; the metadata
  spread there carries no `pageData`). -/
  | notFoundRenderResult (body : RenderedBody)
deriving DecidableEq, Repr

/-- The `pageData` metadata attached to an orchestrator result. -/
def pageDataOf : ImplResult → Option JSStr
  | .renderResultOut _ pageData => pageData
  | .staticRenderResult _ pageData _ => pageData
  | _ => none

/-- Erase the `pageData` metadata of a result (for frame statements). -/
def scrubPageData : ImplResult → ImplResult
  | .renderResultOut body _ => .renderResultOut body none
  | .staticRenderResult body _ revalidate => .staticRenderResult body none revalidate
  | r => r

/-- Environment of one `renderToHTMLOrFlightImpl` invocation: outcomes of
the collaborator calls it performs. -/
structure ImplEnv where
  /-- The navigation-marker (`RSC`) request header is present. -/
  rscHeader : Bool
  /-- `typeof renderOpts.postponed === 'string'`. -/
  hasPostponed : Bool
  buildId : JSStr
  /-- Serialized output of the tree-payload walk for this request. -/
  flightWalkOutput : JSStr
  /-- Outcome of the eager `generateFlight(ctx).then(toUnchunkedString)`
  promise; `.catch(() => null)` swallows the error case. -/
  flightGen : Except JsError JSStr
  /-- The `handleAction` outcome. -/
  action : ActionOutcome
  /-- Outcomes for the (single) `bodyResult` invocation. -/
  docRender : DocumentRenderEnv
  /-- The `capturedErrors` list as accumulated by the per-source error
  handlers by the time the finalize step reads it. -/
  capturedErrors : List JsError

/-- Per-request configuration of `renderToHTMLOrFlightImpl`. -/
structure ImplConfig where
  basePath : Option JSStr
  /-- `pagePath === '/404'`. -/
  isNotFoundPath : Bool
  /-- The fresh `inlinedDataTransformStream` allocated for
  `serverComponentsRenderOpts`. -/
  inlinedDataTransformStream : StreamId
  /-- Which query keys are internal-only. -/
  isInternalQueryKey : JSStr → Bool

/-- Everything `renderToHTMLOrFlightImpl` produces apart from the query-heap
effect: final response/store state, document-render count, result or error. -/
structure CoreOutcome where
  res : ResponseState
  sg : StaticGenerationState
  renders : Nat
  result : Except JsError ImplResult

/-- The control flow of `renderToHTMLOrFlightImpl` after the query-object
copy: flight-only early return, eager flight payload, action dispatch,
document render, and the static-generation finalize. -/
def renderCore (cfg : ImplConfig) (env : ImplEnv)
    (res : ResponseState) (sg : StaticGenerationState) : CoreOutcome :=
  if env.rscHeader && !sg.isStaticGeneration then
    -- pure client navigation: flight payload only, no HTML path at all
    { res := res, sg := sg, renders := 0,
      result := .ok (.flightResult (generateFlight env.buildId env.flightWalkOutput)) }
  else
    -- stringifiedFlightPayloadPromise (its rejection resolves to null)
    let pageData : Option JSStr :=
      if sg.isStaticGeneration || env.hasPostponed then
        match env.flightGen with
        | .ok payload => some payload
        | .error _ => none
      else none
    let bodyCfg : BodyConfig :=
      { basePath := cfg.basePath, resumePostponed := env.hasPostponed,
        inlinedDataTransformStream := cfg.inlinedDataTransformStream }
    match env.action with
    | .actionNotFound =>
      -- render the synthetic not-found tree and return immediately
      let b := bodyResult bodyCfg env.docRender res sg
      { res := b.res, sg := b.sg, renders := b.renders,
        result := Except.map (fun body => ImplResult.notFoundRenderResult body) b.result }
    | .doneResult =>
      -- short-circuit with the bridge's result (HTML rendering skipped)
      { res := res, sg := sg, renders := 0, result := .ok .actionResultOut }
    | _ =>
      let b := bodyResult bodyCfg env.docRender res sg
      match b.result with
      | .error e =>
        { res := b.res, sg := b.sg, renders := b.renders, result := .error e }
      | .ok body =>
        if sg.isStaticGeneration then
          -- second pass materializes the HTML; unexpected captured errors
          -- fail the prerendering phase and the build
          match env.capturedErrors with
          | e :: _ =>
            { res := b.res, sg := b.sg, renders := b.renders, result := .error e }
          | [] =>
            let sg2 :=
              if b.sg.forceStatic = some false then { b.sg with revalidate := some 0 }
              else b.sg
            { res := b.res, sg := sg2, renders := b.renders,
              result := .ok (.staticRenderResult body pageData sg2.revalidate) }
        else
          { res := b.res, sg := b.sg, renders := b.renders,
            result := .ok (.renderResultOut body pageData) }

/-- Result of `renderToHTMLOrFlightImpl`, including the query-heap effect. -/
structure ImplOutcome where
  heap : QueryHeap
  res : ResponseState
  sg : StaticGenerationState
  renders : Nat
  result : Except JsError ImplResult

/-- `renderToHTMLOrFlightImpl`: copy-and-strip the query object (the
caller's object is not modified), then run the render flow. -/
def renderToHTMLOrFlightImpl (cfg : ImplConfig) (env : ImplEnv)
    (heap : QueryHeap) (qid : Nat)
    (res : ResponseState) (sg : StaticGenerationState) : ImplOutcome :=
  -- don't modify original query object
  let sq := spreadQuery heap qid
  let heap2 := stripInternalQueries cfg.isInternalQueryKey sq.1 sq.2
  let core := renderCore cfg env res sg
  { heap := heap2, res := core.res, sg := core.sg,
    renders := core.renders, result := core.result }


/-! ## Claims about the error-recovery state machine -/

/-- C1: a NotFoundSignal thrown during the document render makes the
orchestrator set the response status code to 404 and return the error
shell rendered with errorType 'not-found' as the body, instead of the
originally requested page content, for every request reaching the
document-render state (whose recovery render completes). -/
theorem claim1_notFound_sets_404_and_returns_notFound_shell
    (cfg : BodyConfig) (env : DocumentRenderEnv) (res : ResponseState)
    (sg : StaticGenerationState) (e : JsError)
    (hp : env.primary = .threw e)
    (hd : e.digest = .notFound)
    (hb1 : e.codeStaticGenBailout = false)
    (hb2 : e.messageHasStaticExportUrl = false)
    (hb3 : e.isReactPostpone = false)
    (hrec : env.errorRenderThrows = none) :
    (bodyResult cfg env res sg).res.statusCode = 404 ∧
    (bodyResult cfg env res sg).result =
      .ok (.errorShellStream (some .notFound)
        (cloneTransformStream cfg.inlinedDataTransformStream)) := by
  have hnf : isNotFoundError e = true := by simp [isNotFoundError, hd]
  have hre : isRedirectError e = false := by simp [isRedirectError, hd]
  constructor <;>
    simp [bodyResult, hp, hb1, hb2, hb3, hrec, hnf, hre]

/-- The concrete thrown not-found signal of the C1 witness. -/
def c1Err : JsError :=
  { codeStaticGenBailout := false, messageHasStaticExportUrl := false,
    isReactPostpone := false, digest := .notFound, mutableCookies := none }

/-- The concrete render environment of the C1 witness. -/
def c1Env : DocumentRenderEnv :=
  { primary := .threw c1Err, errorRenderThrows := none }

/-- The concrete body configuration of the C1 witness. -/
def c1Cfg : BodyConfig :=
  { basePath := none, resumePostponed := false, inlinedDataTransformStream := 0 }

/-- The concrete response state of the C1 witness. -/
def c1Res : ResponseState :=
  { statusCode := 200, locationHeader := none, setCookieHeader := none }

/-- The concrete store state of the C1 witness. -/
def c1Sg : StaticGenerationState :=
  { isStaticGeneration := false, revalidate := none, forceStatic := none }

/-- Witness for C1 at a concrete request. -/
theorem claim1_witness :
    c1Env.primary = .threw c1Err ∧ c1Err.digest = .notFound ∧
    ((bodyResult c1Cfg c1Env c1Res c1Sg).res.statusCode = 404 ∧
     (bodyResult c1Cfg c1Env c1Res c1Sg).result =
       .ok (.errorShellStream (some .notFound) (cloneTransformStream 0))) :=
  ⟨rfl, rfl,
    claim1_notFound_sets_404_and_returns_notFound_shell c1Cfg c1Env c1Res c1Sg c1Err
      rfl rfl rfl rfl rfl rfl⟩

/-- C2: a RedirectSignal with status 307 and target `/login` thrown during
the document render sets the response status to the redirect's own status
code 307, sets a Location header ending in `/login` (the URL prefixed with
the configured basePath), forwards non-empty mutable cookies via a
`set-cookie` header, and returns only the minimal error shell. -/
theorem claim2_redirect_307_login
    (cfg : BodyConfig) (env : DocumentRenderEnv) (res : ResponseState)
    (sg : StaticGenerationState) (e : JsError)
    (hp : env.primary = .threw e)
    (hd : e.digest = .redirect 307 "/login".data)
    (hb1 : e.codeStaticGenBailout = false)
    (hb2 : e.messageHasStaticExportUrl = false)
    (hb3 : e.isReactPostpone = false)
    (hrec : env.errorRenderThrows = none) :
    (bodyResult cfg env res sg).res.statusCode = 307 ∧
    (∃ loc, (bodyResult cfg env res sg).res.locationHeader = some loc ∧
      "/login".data <:+ loc) ∧
    (∀ cookies, e.mutableCookies = some cookies → cookies ≠ [] →
      (bodyResult cfg env res sg).res.setCookieHeader = some cookies) ∧
    (bodyResult cfg env res sg).result =
      .ok (.errorShellStream (some .redirect)
        (cloneTransformStream cfg.inlinedDataTransformStream)) := by
  have hnf : isNotFoundError e = false := by simp [isNotFoundError, hd]
  have hre : isRedirectError e = true := by simp [isRedirectError, hd]
  have hsc : getRedirectStatusCodeFromError e = 307 := by
    simp [getRedirectStatusCodeFromError, hd]
  have hurl : getURLFromRedirectError e = "/login".data := by
    simp [getURLFromRedirectError, hd]
  cases hmc : e.mutableCookies with
  | none =>
    refine ⟨?_, ⟨addPathPrefix "/login".data cfg.basePath, ?_, addPathPrefix_suffix _ _⟩,
        ?_, ?_⟩ <;>
      simp [bodyResult, hp, hb1, hb2, hb3, hrec, hnf, hre, hsc, hurl, hmc]
  | some cookies =>
    cases cookies with
    | nil =>
      refine ⟨?_, ⟨addPathPrefix "/login".data cfg.basePath, ?_, addPathPrefix_suffix _ _⟩,
          ?_, ?_⟩ <;>
        simp [bodyResult, hp, hb1, hb2, hb3, hrec, hnf, hre, hsc, hurl, hmc,
          appendMutableCookies]
    | cons c0 ct =>
      refine ⟨?_, ⟨addPathPrefix "/login".data cfg.basePath, ?_, addPathPrefix_suffix _ _⟩,
          ?_, ?_⟩ <;>
        simp [bodyResult, hp, hb1, hb2, hb3, hrec, hnf, hre, hsc, hurl, hmc,
          appendMutableCookies]

/-- The concrete thrown redirect signal of the C2 witness. -/
def c2Err : JsError :=
  { codeStaticGenBailout := false, messageHasStaticExportUrl := false,
    isReactPostpone := false, digest := .redirect 307 "/login".data,
    mutableCookies := some ["token=1".data] }

/-- The concrete render environment of the C2 witness. -/
def c2Env : DocumentRenderEnv :=
  { primary := .threw c2Err, errorRenderThrows := none }

/-- The concrete body configuration of the C2 witness. -/
def c2Cfg : BodyConfig :=
  { basePath := some "/app".data, resumePostponed := false,
    inlinedDataTransformStream := 3 }

/-- The concrete response state of the C2 witness. -/
def c2Res : ResponseState :=
  { statusCode := 200, locationHeader := none, setCookieHeader := none }

/-- The concrete store state of the C2 witness. -/
def c2Sg : StaticGenerationState :=
  { isStaticGeneration := false, revalidate := none, forceStatic := none }

/-- Witness for C2 at a concrete request. -/
theorem claim2_witness :
    c2Env.primary = .threw c2Err ∧ c2Err.digest = .redirect 307 "/login".data ∧
    ((bodyResult c2Cfg c2Env c2Res c2Sg).res.statusCode = 307 ∧
     (∃ loc, (bodyResult c2Cfg c2Env c2Res c2Sg).res.locationHeader = some loc ∧
       "/login".data <:+ loc) ∧
     (∀ cookies, c2Err.mutableCookies = some cookies → cookies ≠ [] →
       (bodyResult c2Cfg c2Env c2Res c2Sg).res.setCookieHeader = some cookies) ∧
     (bodyResult c2Cfg c2Env c2Res c2Sg).result =
       .ok (.errorShellStream (some .redirect) (cloneTransformStream 3))) :=
  ⟨rfl, rfl,
    claim2_redirect_307_login c2Cfg c2Env c2Res c2Sg c2Err rfl rfl rfl rfl rfl rfl⟩

/-- C3: a static-generation bailout signal thrown during the document render
is rethrown unchanged and never enters error recovery: no error shell is
rendered, the response state and the store are untouched, and only the one
primary render attempt happened. -/
theorem claim3_staticGenBailout_rethrown
    (cfg : BodyConfig) (env : DocumentRenderEnv) (res : ResponseState)
    (sg : StaticGenerationState) (e : JsError)
    (hp : env.primary = .threw e)
    (hb : e.codeStaticGenBailout = true ∨ e.messageHasStaticExportUrl = true) :
    bodyResult cfg env res sg =
      { res := res, sg := sg, renders := 1, result := .error e } := by
  have hcond : (e.codeStaticGenBailout || e.messageHasStaticExportUrl) = true := by
    rcases hb with h | h <;> simp [h]
  simp [bodyResult, hp, hcond]

/-- The concrete thrown bailout signal of the C3 witness. -/
def c3Err : JsError :=
  { codeStaticGenBailout := true, messageHasStaticExportUrl := false,
    isReactPostpone := false, digest := .other, mutableCookies := none }

/-- The concrete render environment of the C3 witness. -/
def c3Env : DocumentRenderEnv :=
  { primary := .threw c3Err, errorRenderThrows := none }

/-- The concrete body configuration of the C3 witness. -/
def c3Cfg : BodyConfig :=
  { basePath := none, resumePostponed := false, inlinedDataTransformStream := 0 }

/-- The concrete response state of the C3 witness. -/
def c3Res : ResponseState :=
  { statusCode := 200, locationHeader := none, setCookieHeader := none }

/-- The concrete store state of the C3 witness. -/
def c3Sg : StaticGenerationState :=
  { isStaticGeneration := true, revalidate := none, forceStatic := none }

/-- Witness for C3 at a concrete request. -/
theorem claim3_witness :
    c3Env.primary = .threw c3Err ∧
    (c3Err.codeStaticGenBailout = true ∨ c3Err.messageHasStaticExportUrl = true) ∧
    bodyResult c3Cfg c3Env c3Res c3Sg =
      { res := c3Res, sg := c3Sg, renders := 1, result := .error c3Err } :=
  ⟨rfl, Or.inl rfl,
    claim3_staticGenBailout_rethrown c3Cfg c3Env c3Res c3Sg c3Err rfl (Or.inl rfl)⟩

/-- C5: whenever error recovery returns the error shell, the recovery render
consumed exactly the clone (made before the second render attempt) of the
side-channel inlined-data transform stream, and that clone is a different
stream instance from the original, so the original is never handed to a
second reader. -/
theorem claim5_recovery_consumes_only_clone
    (cfg : BodyConfig) (env : DocumentRenderEnv) (res : ResponseState)
    (sg : StaticGenerationState) (et : Option ShellErrorType) (s : StreamId)
    (h : (bodyResult cfg env res sg).result = .ok (.errorShellStream et s)) :
    s = cloneTransformStream cfg.inlinedDataTransformStream ∧
    s ≠ cfg.inlinedDataTransformStream := by
  have hs : s = cloneTransformStream cfg.inlinedDataTransformStream := by
    cases env with
    | mk primary errRender =>
      cases primary with
      | ok postponed =>
        by_cases hpost : postponed <;> by_cases hres : cfg.resumePostponed <;>
          simp [bodyResult, hpost, hres] at h
      | threw e =>
        by_cases h1 : (e.codeStaticGenBailout || e.messageHasStaticExportUrl) = true
        · simp [bodyResult, h1] at h
        · by_cases h2 : e.isReactPostpone = true
          · simp [bodyResult, h1, h2] at h
          · cases errRender with
            | some fe => simp [bodyResult, h1, h2] at h
            | none =>
              simp [bodyResult, h1, h2] at h
              exact h.2.symm
  exact ⟨hs, by rw [hs]; simp [cloneTransformStream]⟩

/-- The concrete thrown error of the C5 witness. -/
def c5Err : JsError :=
  { codeStaticGenBailout := false, messageHasStaticExportUrl := false,
    isReactPostpone := false, digest := .other, mutableCookies := none }

/-- The concrete render environment of the C5 witness. -/
def c5Env : DocumentRenderEnv :=
  { primary := .threw c5Err, errorRenderThrows := none }

/-- The concrete body configuration of the C5 witness. -/
def c5Cfg : BodyConfig :=
  { basePath := none, resumePostponed := false, inlinedDataTransformStream := 7 }

/-- The concrete response state of the C5 witness. -/
def c5Res : ResponseState :=
  { statusCode := 200, locationHeader := none, setCookieHeader := none }

/-- The concrete store state of the C5 witness. -/
def c5Sg : StaticGenerationState :=
  { isStaticGeneration := false, revalidate := none, forceStatic := none }

/-- Witness for C5 at a concrete request. -/
theorem claim5_witness :
    (bodyResult c5Cfg c5Env c5Res c5Sg).result = .ok (.errorShellStream none 8) ∧
    (8 = cloneTransformStream c5Cfg.inlinedDataTransformStream ∧
      8 ≠ c5Cfg.inlinedDataTransformStream) :=
  ⟨rfl, claim5_recovery_consumes_only_clone c5Cfg c5Env c5Res c5Sg none 8 rfl⟩


/-! ## Claims about the outer orchestrator flow -/

/-- C4: in static-generation mode, when the captured component-error list is
non-empty after the (successful) render, `renderToHTMLOrFlightImpl` throws
the first captured error instead of returning a result. -/
theorem claim4_staticGeneration_capturedErrors_throw
    (cfg : ImplConfig) (env : ImplEnv) (heap : QueryHeap) (qid : Nat)
    (res : ResponseState) (sg : StaticGenerationState)
    (e : JsError) (rest : List JsError) (body : RenderedBody)
    (hsg : sg.isStaticGeneration = true)
    (hact : env.action = .noAction ∨ env.action = .doneFormState)
    (hcap : env.capturedErrors = e :: rest)
    (hbody : (bodyResult
        { basePath := cfg.basePath, resumePostponed := env.hasPostponed,
          inlinedDataTransformStream := cfg.inlinedDataTransformStream }
        env.docRender res sg).result = .ok body) :
    (renderToHTMLOrFlightImpl cfg env heap qid res sg).result = .error e := by
  rcases hact with ha | ha <;>
    simp [renderToHTMLOrFlightImpl, renderCore, ha, hbody, hsg, hcap]

/-- The concrete captured component error of the C4 witness. -/
def c4Err : JsError :=
  { codeStaticGenBailout := false, messageHasStaticExportUrl := false,
    isReactPostpone := false, digest := .other, mutableCookies := none }

/-- The concrete environment of the C4 witness: a successful document render
in static generation with one captured component error. -/
def c4Env : ImplEnv :=
  { rscHeader := false, hasPostponed := false, buildId := "bid".data,
    flightWalkOutput := "walk".data, flightGen := .ok "payload".data,
    action := .noAction,
    docRender := { primary := .ok false, errorRenderThrows := none },
    capturedErrors := [c4Err] }

/-- The concrete configuration of the C4 witness. -/
def c4Cfg : ImplConfig :=
  { basePath := none, isNotFoundPath := false, inlinedDataTransformStream := 0,
    isInternalQueryKey := fun _ => false }

/-- The concrete query heap of the C4 witness. -/
def c4Heap : QueryHeap :=
  { next := 1, store := fun _ => [] }

/-- The concrete response state of the C4 witness. -/
def c4Res : ResponseState :=
  { statusCode := 200, locationHeader := none, setCookieHeader := none }

/-- The concrete store state of the C4 witness. -/
def c4Sg : StaticGenerationState :=
  { isStaticGeneration := true, revalidate := none, forceStatic := none }

/-- Witness for C4 at a concrete request. -/
theorem claim4_witness :
    c4Sg.isStaticGeneration = true ∧
    (c4Env.action = .noAction ∨ c4Env.action = .doneFormState) ∧
    c4Env.capturedErrors = [c4Err] ∧
    (bodyResult
      { basePath := c4Cfg.basePath, resumePostponed := c4Env.hasPostponed,
        inlinedDataTransformStream := c4Cfg.inlinedDataTransformStream }
      c4Env.docRender c4Res c4Sg).result = .ok (.pageStream 0 false) ∧
    (renderToHTMLOrFlightImpl c4Cfg c4Env c4Heap 0 c4Res c4Sg).result = .error c4Err :=
  ⟨rfl, Or.inl rfl, rfl, rfl,
    claim4_staticGeneration_capturedErrors_throw c4Cfg c4Env c4Heap 0 c4Res c4Sg
      c4Err [] (.pageStream 0 false) rfl (Or.inl rfl) rfl rfl⟩

/-- C8: a request carrying the navigation-marker (RSC) header that is not a
static-generation pass returns the `generateFlight` payload result — a
serialized tree-payload stream only, no HTML — and starts no document
render. -/
theorem claim8_flight_only_no_document_render
    (cfg : ImplConfig) (env : ImplEnv) (heap : QueryHeap) (qid : Nat)
    (res : ResponseState) (sg : StaticGenerationState)
    (hrsc : env.rscHeader = true)
    (hsg : sg.isStaticGeneration = false) :
    (renderToHTMLOrFlightImpl cfg env heap qid res sg).result =
      .ok (.flightResult (generateFlight env.buildId env.flightWalkOutput)) ∧
    (renderToHTMLOrFlightImpl cfg env heap qid res sg).renders = 0 := by
  constructor <;> simp [renderToHTMLOrFlightImpl, renderCore, hrsc, hsg]

/-- The concrete environment of the C8 witness: a client navigation. -/
def c8Env : ImplEnv :=
  { rscHeader := true, hasPostponed := false, buildId := "bid".data,
    flightWalkOutput := "walk".data, flightGen := .ok "payload".data,
    action := .noAction,
    docRender := { primary := .ok false, errorRenderThrows := none },
    capturedErrors := [] }

/-- The concrete configuration of the C8 witness. -/
def c8Cfg : ImplConfig :=
  { basePath := none, isNotFoundPath := false, inlinedDataTransformStream := 0,
    isInternalQueryKey := fun _ => false }

/-- The concrete query heap of the C8 witness. -/
def c8Heap : QueryHeap :=
  { next := 1, store := fun _ => [] }

/-- The concrete response state of the C8 witness. -/
def c8Res : ResponseState :=
  { statusCode := 200, locationHeader := none, setCookieHeader := none }

/-- The concrete store state of the C8 witness. -/
def c8Sg : StaticGenerationState :=
  { isStaticGeneration := false, revalidate := none, forceStatic := none }

/-- Witness for C8 at a concrete request. -/
theorem claim8_witness :
    c8Env.rscHeader = true ∧ c8Sg.isStaticGeneration = false ∧
    ((renderToHTMLOrFlightImpl c8Cfg c8Env c8Heap 0 c8Res c8Sg).result =
      .ok (.flightResult (generateFlight "bid".data "walk".data)) ∧
     (renderToHTMLOrFlightImpl c8Cfg c8Env c8Heap 0 c8Res c8Sg).renders = 0) :=
  ⟨rfl, rfl, claim8_flight_only_no_document_render c8Cfg c8Env c8Heap 0 c8Res c8Sg rfl rfl⟩

theorem renderCore_flightGen_frame (cfg : ImplConfig) (env : ImplEnv)
    (res : ResponseState) (sg : StaticGenerationState)
    (f g : Except JsError JSStr) :
    Except.map scrubPageData
        (renderCore cfg { env with flightGen := f } res sg).result =
      Except.map scrubPageData
        (renderCore cfg { env with flightGen := g } res sg).result ∧
    (renderCore cfg { env with flightGen := f } res sg).res =
      (renderCore cfg { env with flightGen := g } res sg).res ∧
    (renderCore cfg { env with flightGen := f } res sg).sg =
      (renderCore cfg { env with flightGen := g } res sg).sg ∧
    (renderCore cfg { env with flightGen := f } res sg).renders =
      (renderCore cfg { env with flightGen := g } res sg).renders := by
  by_cases hsg : sg.isStaticGeneration = true
  · cases hact : env.action with
    | actionNotFound => simp [renderCore, hact, hsg]
    | doneResult => simp [renderCore, hact, hsg]
    | noAction =>
      cases hbr : (bodyResult
          { basePath := cfg.basePath, resumePostponed := env.hasPostponed,
            inlinedDataTransformStream := cfg.inlinedDataTransformStream }
          env.docRender res sg).result with
      | error e2 => simp [renderCore, hact, hsg, hbr]
      | ok body =>
        cases hcap : env.capturedErrors with
        | nil => simp [renderCore, hact, hsg, hbr, hcap, scrubPageData, Except.map]
        | cons e2 t => simp [renderCore, hact, hsg, hbr, hcap]
    | doneFormState =>
      cases hbr : (bodyResult
          { basePath := cfg.basePath, resumePostponed := env.hasPostponed,
            inlinedDataTransformStream := cfg.inlinedDataTransformStream }
          env.docRender res sg).result with
      | error e2 => simp [renderCore, hact, hsg, hbr]
      | ok body =>
        cases hcap : env.capturedErrors with
        | nil => simp [renderCore, hact, hsg, hbr, hcap, scrubPageData, Except.map]
        | cons e2 t => simp [renderCore, hact, hsg, hbr, hcap]
  · cases hr : env.rscHeader with
    | true => simp [renderCore, hr, hsg]
    | false =>
      cases hact : env.action with
      | actionNotFound => simp [renderCore, hact, hsg, hr]
      | doneResult => simp [renderCore, hact, hsg, hr]
      | noAction =>
        cases hbr : (bodyResult
            { basePath := cfg.basePath, resumePostponed := env.hasPostponed,
              inlinedDataTransformStream := cfg.inlinedDataTransformStream }
            env.docRender res sg).result with
        | error e2 => simp [renderCore, hact, hsg, hr, hbr]
        | ok body => simp [renderCore, hact, hsg, hr, hbr, scrubPageData, Except.map]
      | doneFormState =>
        cases hbr : (bodyResult
            { basePath := cfg.basePath, resumePostponed := env.hasPostponed,
              inlinedDataTransformStream := cfg.inlinedDataTransformStream }
            env.docRender res sg).result with
        | error e2 => simp [renderCore, hact, hsg, hr, hbr]
        | ok body => simp [renderCore, hact, hsg, hr, hbr, scrubPageData, Except.map]

theorem renderCore_flightGenError_pageData_none (cfg : ImplConfig) (env : ImplEnv)
    (res : ResponseState) (sg : StaticGenerationState) (e : JsError) (r : ImplResult)
    (h : (renderCore cfg { env with flightGen := .error e } res sg).result = .ok r) :
    pageDataOf r = none := by
  by_cases hsg : sg.isStaticGeneration = true
  · cases hact : env.action with
    | actionNotFound =>
      cases hbr : (bodyResult
          { basePath := cfg.basePath, resumePostponed := env.hasPostponed,
            inlinedDataTransformStream := cfg.inlinedDataTransformStream }
          env.docRender res sg).result with
      | error e2 => simp [renderCore, hact, hsg, hbr, Except.map] at h
      | ok body =>
        simp [renderCore, hact, hsg, hbr, Except.map] at h
        simp [← h, pageDataOf]
    | doneResult =>
      simp [renderCore, hact, hsg] at h
      simp [← h, pageDataOf]
    | noAction =>
      cases hbr : (bodyResult
          { basePath := cfg.basePath, resumePostponed := env.hasPostponed,
            inlinedDataTransformStream := cfg.inlinedDataTransformStream }
          env.docRender res sg).result with
      | error e2 => simp [renderCore, hact, hsg, hbr] at h
      | ok body =>
        cases hcap : env.capturedErrors with
        | nil =>
          simp [renderCore, hact, hsg, hbr, hcap] at h
          simp [← h, pageDataOf]
        | cons e2 t => simp [renderCore, hact, hsg, hbr, hcap] at h
    | doneFormState =>
      cases hbr : (bodyResult
          { basePath := cfg.basePath, resumePostponed := env.hasPostponed,
            inlinedDataTransformStream := cfg.inlinedDataTransformStream }
          env.docRender res sg).result with
      | error e2 => simp [renderCore, hact, hsg, hbr] at h
      | ok body =>
        cases hcap : env.capturedErrors with
        | nil =>
          simp [renderCore, hact, hsg, hbr, hcap] at h
          simp [← h, pageDataOf]
        | cons e2 t => simp [renderCore, hact, hsg, hbr, hcap] at h
  · cases hr : env.rscHeader with
    | true =>
      simp [renderCore, hr, hsg] at h
      simp [← h, pageDataOf]
    | false =>
      cases hact : env.action with
      | actionNotFound =>
        cases hbr : (bodyResult
            { basePath := cfg.basePath, resumePostponed := env.hasPostponed,
              inlinedDataTransformStream := cfg.inlinedDataTransformStream }
            env.docRender res sg).result with
        | error e2 => simp [renderCore, hact, hsg, hr, hbr, Except.map] at h
        | ok body =>
          simp [renderCore, hact, hsg, hr, hbr, Except.map] at h
          simp [← h, pageDataOf]
      | doneResult =>
        simp [renderCore, hact, hsg, hr] at h
        simp [← h, pageDataOf]
      | noAction =>
        cases hbr : (bodyResult
            { basePath := cfg.basePath, resumePostponed := env.hasPostponed,
              inlinedDataTransformStream := cfg.inlinedDataTransformStream }
            env.docRender res sg).result with
        | error e2 => simp [renderCore, hact, hsg, hr, hbr] at h
        | ok body =>
          simp [renderCore, hact, hsg, hr, hbr] at h
          simp [← h, pageDataOf]
      | doneFormState =>
        cases hbr : (bodyResult
            { basePath := cfg.basePath, resumePostponed := env.hasPostponed,
              inlinedDataTransformStream := cfg.inlinedDataTransformStream }
            env.docRender res sg).result with
        | error e2 => simp [renderCore, hact, hsg, hr, hbr] at h
        | ok body =>
          simp [renderCore, hact, hsg, hr, hbr] at h
          simp [← h, pageDataOf]

/-- C9: a failure of the eager background flight-payload generation is
swallowed: any result returned carries null pageData, and the failure
changes nothing else — response, store, render attempts and the body are
exactly those of a successful generation (only the pageData metadata
differs). -/
theorem claim9_flightGen_failure_swallowed
    (cfg : ImplConfig) (env : ImplEnv) (heap : QueryHeap) (qid : Nat)
    (res : ResponseState) (sg : StaticGenerationState)
    (e : JsError) (payload : JSStr) (r : ImplResult)
    (h : (renderToHTMLOrFlightImpl cfg { env with flightGen := .error e }
        heap qid res sg).result = .ok r) :
    pageDataOf r = none ∧
    Except.map scrubPageData
        (renderToHTMLOrFlightImpl cfg { env with flightGen := .error e }
          heap qid res sg).result =
      Except.map scrubPageData
        (renderToHTMLOrFlightImpl cfg { env with flightGen := .ok payload }
          heap qid res sg).result ∧
    (renderToHTMLOrFlightImpl cfg { env with flightGen := .error e }
        heap qid res sg).res =
      (renderToHTMLOrFlightImpl cfg { env with flightGen := .ok payload }
        heap qid res sg).res ∧
    (renderToHTMLOrFlightImpl cfg { env with flightGen := .error e }
        heap qid res sg).sg =
      (renderToHTMLOrFlightImpl cfg { env with flightGen := .ok payload }
        heap qid res sg).sg ∧
    (renderToHTMLOrFlightImpl cfg { env with flightGen := .error e }
        heap qid res sg).renders =
      (renderToHTMLOrFlightImpl cfg { env with flightGen := .ok payload }
        heap qid res sg).renders := by
  have hframe := renderCore_flightGen_frame cfg env res sg (.error e) (.ok payload)
  have hpd := renderCore_flightGenError_pageData_none cfg env res sg e r h
  exact ⟨hpd, hframe.1, hframe.2.1, hframe.2.2.1, hframe.2.2.2⟩

/-- The C9 witness error value. -/
def c9Err : JsError :=
  { codeStaticGenBailout := false, messageHasStaticExportUrl := false,
    isReactPostpone := false, digest := .other, mutableCookies := none }

/-- The concrete environment of the C9 witness (flight generation fails). -/
def c9Env : ImplEnv :=
  { rscHeader := false, hasPostponed := true, buildId := "bid".data,
    flightWalkOutput := "walk".data,
    flightGen := .error c9Err,
    action := .noAction,
    docRender := { primary := .ok false, errorRenderThrows := none },
    capturedErrors := [] }

/-- The concrete configuration of the C9 witness. -/
def c9Cfg : ImplConfig :=
  { basePath := none, isNotFoundPath := false, inlinedDataTransformStream := 0,
    isInternalQueryKey := fun _ => false }

/-- The concrete query heap of the C9 witness. -/
def c9Heap : QueryHeap :=
  { next := 1, store := fun _ => [] }

/-- The concrete response state of the C9 witness. -/
def c9Res : ResponseState :=
  { statusCode := 200, locationHeader := none, setCookieHeader := none }

/-- The concrete store state of the C9 witness. -/
def c9Sg : StaticGenerationState :=
  { isStaticGeneration := false, revalidate := none, forceStatic := none }

/-- Witness for C9 at a concrete request: the render resumes, the flight
generation fails, the returned page body is unchanged and pageData is null. -/
theorem claim9_witness :
    (renderToHTMLOrFlightImpl c9Cfg { c9Env with flightGen := .error c9Err }
        c9Heap 0 c9Res c9Sg).result = .ok (.renderResultOut (.pageStream 0 true) none) ∧
    pageDataOf (.renderResultOut (.pageStream 0 true) none) = none :=
  ⟨by rfl,
    (claim9_flightGen_failure_swallowed c9Cfg c9Env c9Heap 0 c9Res c9Sg c9Err
      "payload".data (.renderResultOut (.pageStream 0 true) none) (by rfl)).1⟩

/-- C10: `renderToHTMLOrFlightImpl` never mutates the caller's query object:
the internal-only parameters are stripped from a shallow copy, so the
caller's object is structurally unchanged after the render. -/
theorem claim10_query_object_not_mutated
    (cfg : ImplConfig) (env : ImplEnv) (heap : QueryHeap) (qid : Nat)
    (res : ResponseState) (sg : StaticGenerationState)
    (hvalid : qid < heap.next) :
    (renderToHTMLOrFlightImpl cfg env heap qid res sg).heap.store qid =
      heap.store qid := by
  show (stripInternalQueries cfg.isInternalQueryKey
      (spreadQuery heap qid).1 (spreadQuery heap qid).2).store qid = heap.store qid
  have hne : ¬ qid = heap.next := by omega
  simp [stripInternalQueries, spreadQuery, hne]

/-- The concrete query heap of the C10 witness: object 0 holds one entry. -/
def c10Heap : QueryHeap :=
  { next := 1, store := fun i => if i = 0 then [("a".data, "b".data)] else [] }

/-- The concrete environment of the C10 witness. -/
def c10Env : ImplEnv :=
  { rscHeader := false, hasPostponed := false, buildId := "bid".data,
    flightWalkOutput := "walk".data, flightGen := .ok "payload".data,
    action := .noAction,
    docRender := { primary := .ok false, errorRenderThrows := none },
    capturedErrors := [] }

/-- The concrete configuration of the C10 witness (`a` is internal-only). -/
def c10Cfg : ImplConfig :=
  { basePath := none, isNotFoundPath := false, inlinedDataTransformStream := 0,
    isInternalQueryKey := fun k => k = "a".data }

/-- The concrete response state of the C10 witness. -/
def c10Res : ResponseState :=
  { statusCode := 200, locationHeader := none, setCookieHeader := none }

/-- The concrete store state of the C10 witness. -/
def c10Sg : StaticGenerationState :=
  { isStaticGeneration := false, revalidate := none, forceStatic := none }

/-- Witness for C10 at a concrete request. -/
theorem claim10_witness :
    0 < c10Heap.next ∧
    (renderToHTMLOrFlightImpl c10Cfg c10Env c10Heap 0 c10Res c10Sg).heap.store 0 =
      c10Heap.store 0 :=
  ⟨Nat.zero_lt_one,
    claim10_query_object_not_mutated c10Cfg c10Env c10Heap 0 c10Res c10Sg Nat.zero_lt_one⟩


/-! ## Claims about segment addressing -/

/-- C6: for every dynamic segment whose parameter value is absent (or the
sentinel empty marker) and whose kind is not optional-catch-all, the
resolver scans the provided prior router state depth-first across all
parallel slots and returns the existing value of the first node whose
descriptor is segment-overridable-compatible with the requested segment;
if no node matches, it returns null. -/
theorem claim6_absent_value_falls_back_to_routerState_scan
    (params : JSStr → Option ParamValue) (frs : Option FlightRouterState)
    (segment : JSStr) (sp : SegmentParamInfo)
    (hseg : getSegmentParam segment = some sp)
    (habs : params sp.param = none ∨ params sp.param = some (.str emptyParamMarker))
    (hnoc : sp.ptype ≠ .optionalCatchall) :
    getDynamicParamFromSegment params frs segment =
      routerStateFirstOverridable frs segment := by
  rw [← findDynamicParamFromRouterState_eq_spec]
  rcases habs with h | h <;>
    simp [getDynamicParamFromSegment, hseg, h, paramValueFalsy, hnoc]

/-- The concrete requested segment of the C6 witness. -/
def c6Segment : JSStr :=
  "[slug]".data

/-- The concrete parameter mapping of the C6 witness (no value present). -/
def c6Params : JSStr → Option ParamValue :=
  fun _ => none

/-- The concrete provided router state of the C6 witness: the overridable
node sits below a literal root. -/
def c6Frs : FlightRouterState :=
  .mk (.literal "root".data)
    [("children".data, .mk (.dynamic "slug".data "vercel".data .d) [])]

/-- Witness for C6 at a concrete segment and router state. -/
theorem claim6_witness :
    getSegmentParam c6Segment = some ⟨"slug".data, .dynamic⟩ ∧
    (c6Params ("slug".data) = none ∨
      c6Params ("slug".data) = some (.str emptyParamMarker)) ∧
    (⟨"slug".data, .dynamic⟩ : SegmentParamInfo).ptype ≠ .optionalCatchall ∧
    getDynamicParamFromSegment c6Params (some c6Frs) c6Segment =
      routerStateFirstOverridable (some c6Frs) c6Segment :=
  ⟨by decide, Or.inl rfl, by decide,
    claim6_absent_value_falls_back_to_routerState_scan c6Params (some c6Frs)
      c6Segment ⟨"slug".data, .dynamic⟩ (by decide) (Or.inl rfl) (by decide)⟩

/-- C7 as stated fails at the present scalar value `""`: its percent-encoded
image is the empty string, which is falsy, so the resolver falls back to the
(empty) router-state scan and returns null instead of a DynamicParam
carrying the encoded value. -/
theorem claim7_counterexample_empty_scalar :
    getDynamicParamFromSegment
      (fun k => if k = "slug".data then some (.str []) else none)
      none "[slug]".data = none := by
  have h : getDynamicParamFromSegment
      (fun k => if k = "slug".data then some (.str []) else none)
      none "[slug]".data =
      findDynamicParamFromRouterState none "[slug]".data := rfl
  rw [h, findDynamicParamFromRouterState]

theorem utf8EncodeChar_ne_nil (n : Nat) : utf8EncodeChar n ≠ [] := by
  unfold utf8EncodeChar
  split_ifs <;> simp

theorem encodeURIComponent_ne_nil (v : JSStr) (h : v ≠ []) :
    encodeURIComponent v ≠ [] := by
  cases v with
  | nil => exact absurd rfl h
  | cons c rest =>
    simp only [encodeURIComponent, List.flatMap_cons]
    by_cases hu : isUnreservedChar c
    · simp [hu]
    · rw [if_neg hu]
      cases he : utf8EncodeChar c.toNat with
      | nil => exact absurd he (utf8EncodeChar_ne_nil c.toNat)
      | cons b t => simp [percentEncodeByte]

/-- C7 (amended): for every dynamic segment whose parameter value is a
present, non-sentinel, non-empty scalar string v, the resolver returns a
DynamicParam whose tree-segment descriptor carries the percent-encoded
value, and percent-decoding that encoded value yields v again. -/
theorem claim7_presentScalar_encodes_and_roundTrips
    (params : JSStr → Option ParamValue) (frs : Option FlightRouterState)
    (segment v : JSStr) (sp : SegmentParamInfo)
    (hseg : getSegmentParam segment = some sp)
    (hv : params sp.param = some (.str v))
    (hne : v ≠ [])
    (hmark : v ≠ emptyParamMarker) :
    getDynamicParamFromSegment params frs segment =
      some { param := sp.param, value := some (.str (encodeURIComponent v)),
             treeSegment := .dynamic sp.param (encodeURIComponent v)
               (getShortDynamicParamType sp.ptype),
             ptype := getShortDynamicParamType sp.ptype } ∧
    decodeURIComponentCodepoints (encodeURIComponent v) = some (v.map Char.toNat) := by
  refine ⟨?_, decode_encodeURIComponent v⟩
  have henc : encodeURIComponent v ≠ [] := encodeURIComponent_ne_nil v hne
  simp [getDynamicParamFromSegment, hseg, hv, hmark, paramValueFalsy, henc]

/-- The concrete parameter mapping of the C7 witness. -/
def c7Params : JSStr → Option ParamValue :=
  fun k => if k = "slug".data then some (.str "hello world".data) else none

/-- Witness for C7 at a concrete segment and value containing a space. -/
theorem claim7_witness :
    getSegmentParam "[slug]".data = some ⟨"slug".data, .dynamic⟩ ∧
    c7Params ("slug".data) = some (.str "hello world".data) ∧
    "hello world".data ≠ ([] : JSStr) ∧
    "hello world".data ≠ emptyParamMarker ∧
    (getDynamicParamFromSegment c7Params none "[slug]".data =
      some { param := "slug".data,
             value := some (.str (encodeURIComponent "hello world".data)),
             treeSegment := .dynamic "slug".data
               (encodeURIComponent "hello world".data) .d,
             ptype := .d } ∧
     decodeURIComponentCodepoints (encodeURIComponent "hello world".data) =
       some (List.map Char.toNat ("hello world".data))) :=
  ⟨by decide, rfl, by decide, by decide,
    claim7_presentScalar_encodes_and_roundTrips c7Params none "[slug]".data
      "hello world".data ⟨"slug".data, .dynamic⟩ (by decide) rfl (by decide) (by decide)⟩

end AppRender
